import Mathlib

/-!
Shallow embedding of the pychrony client library (`src/pychrony/models.py` and
`src/pychrony/_core/_bindings.py`) and proofs checking its natural-language
specification against the code.

Python floats are modelled by `PyFloat` (a rational number, NaN, or a signed
infinity); real-number arithmetic on finite values is idealized by exact
rational arithmetic.  Raised exceptions are modelled by `Except`-valued
functions carrying the error kind and message.  The libchrony FFI boundary
(an opaque C session object) is modelled by an explicit behaviour record
describing the status codes and field tables the C library would return.
-/

/-! ### Reference-ID formatting (`models._ref_id_to_name`) -/

/-- The four big-endian bytes of a 32-bit reference ID
(`ref_id.to_bytes(4, "big")` in the source). -/
def refIdBytes (refId : Nat) : List Nat :=
  [refId / 2 ^ 24 % 256, refId / 2 ^ 16 % 256, refId / 2 ^ 8 % 256, refId % 256]

/-- The byte test in `_ref_id_to_name`: `b == 0 or 32 <= b < 127`. -/
def isNameByte (b : Nat) : Bool :=
  b == 0 || (decide (32 ≤ b) && decide (b < 127))

/-- Python `bytes.rstrip(b"\x00")`: remove trailing zero bytes. -/
def rstripNulls (bs : List Nat) : List Nat :=
  (bs.reverse.dropWhile (· == 0)).reverse

/-- Embedding of `models._ref_id_to_name`: if every big-endian byte is 0 or printable
ASCII, decode as an ASCII name with trailing null bytes stripped; otherwise
format as a dotted quad. -/
def _ref_id_to_name (refId : Nat) : String :=
  let bytesVal := refIdBytes refId
  if bytesVal.all isNameByte then
    String.mk ((rstripNulls bytesVal).map Char.ofNat)
  else
    String.intercalate "." (bytesVal.map (fun b => toString b))

/-- Spec-side reading of "trailing null bytes stripped", written as direct
structural recursion (independently of the `reverse`/`dropWhile` route the
embedding of `rstrip` takes). -/
def dropTrailingZeros : List Nat → List Nat
  | [] => []
  | b :: bs =>
    match dropTrailingZeros bs with
    | [] => if b == 0 then [] else [b]
    | r => b :: r

/-! ### Timestamp conversion (`_bindings._timespec_to_float`) -/

/-- Embedding of `NANOSECONDS_PER_SECOND = 1e9` (idealized as an exact rational). -/
def NANOSECONDS_PER_SECOND : ℚ := 1e9

/-- Embedding of `_bindings._timespec_to_float`: `ts.tv_sec + ts.tv_nsec / 1e9`. -/
def _timespec_to_float (tv_sec tv_nsec : ℤ) : ℚ :=
  tv_sec + tv_nsec / NANOSECONDS_PER_SECOND

/-! ### Python float values -/

/-- A Python float value: NaN, a signed infinity, or a finite value
(idealized as an exact rational). -/
inductive PyFloat where
  | nan : PyFloat
  | inf : PyFloat
  | ninf : PyFloat
  | fin : ℚ → PyFloat
deriving DecidableEq, Repr

/-- Embedding of `math.isnan(value)`. -/
def PyFloat.isnan : PyFloat → Bool
  | .nan => true
  | _ => false

/-- Embedding of `math.isinf(value)`. -/
def PyFloat.isinf : PyFloat → Bool
  | .inf => true
  | .ninf => true
  | _ => false

/-- Python float comparison `value < 0` (false for NaN and +inf, true for
-inf). -/
def PyFloat.ltZero : PyFloat → Bool
  | .nan => false
  | .inf => false
  | .ninf => true
  | .fin q => decide (q < 0)

/-- Finiteness: neither NaN nor infinite. -/
def PyFloat.isFinite (v : PyFloat) : Bool :=
  !(v.isnan || v.isinf)

/-- Rendering of a float into an f-string error message. -/
def PyFloat.render : PyFloat → String
  | .nan => "nan"
  | .inf => "inf"
  | .ninf => "-inf"
  | .fin q => toString q

/-! ### Error taxonomy (`pychrony.exceptions`) -/

/-- The exception taxonomy: `ChronyLibraryError`, `ChronyConnectionError`,
`ChronyPermissionError`, `ChronyDataError`, each carrying its message (the
optional numeric `error_code` is not modelled). -/
inductive PyErr where
  | library : String → PyErr
  | connection : String → PyErr
  | permission : String → PyErr
  | data : String → PyErr
deriving DecidableEq, Repr

instance {ε α : Type} [DecidableEq ε] [DecidableEq α] :
    DecidableEq (Except ε α) := fun a b =>
  match a, b with
  | .ok x, .ok y =>
    if h : x = y then .isTrue (by rw [h])
    else .isFalse (by intro hc; cases hc; exact h rfl)
  | .error e, .error f =>
    if h : e = f then .isTrue (by rw [h])
    else .isFalse (by intro hc; cases hc; exact h rfl)
  | .ok _, .error _ => .isFalse (by intro hc; cases hc)
  | .error _, .ok _ => .isFalse (by intro hc; cases hc)

/-! ### Enumerations

Modelled from the spec: `LeapStatus`, `SourceState` and `SourceMode` are
imported by `_bindings.py` from `pychrony.models`, but the source file
defining these three enumerations is not present in the sources; the spec
fixes their value sets: leap status has exactly 4 values
(normal/insert/delete/unsynchronized, raw 0-3), source state exactly 6
(selected/nonselectable/falseticker/jittery/unselected/selectable, raw 0-5),
source mode exactly 3 (client/peer/reference-clock, raw 0-2), and converting
a raw integer outside the set raises `ValueError`. -/

/-- Modelled from the spec: leap-second status enumeration (4 values). -/
inductive LeapStatus where
  | NORMAL
  | INSERT
  | DELETE
  | UNSYNC
deriving DecidableEq, Repr

/-- Modelled from the spec: the fallible `LeapStatus(n)` conversion,
defined exactly on raw values 0-3. -/
def LeapStatus.ofNat? (n : Nat) : Option LeapStatus :=
  if n = 0 then some .NORMAL
  else if n = 1 then some .INSERT
  else if n = 2 then some .DELETE
  else if n = 3 then some .UNSYNC
  else none

/-- Modelled from the spec: source selection state enumeration (6 values). -/
inductive SourceState where
  | SELECTED
  | NONSELECTABLE
  | FALSETICKER
  | JITTERY
  | UNSELECTED
  | SELECTABLE
deriving DecidableEq, Repr

/-- Modelled from the spec: the fallible `SourceState(n)` conversion,
defined exactly on raw values 0-5. -/
def SourceState.ofNat? (n : Nat) : Option SourceState :=
  if n = 0 then some .SELECTED
  else if n = 1 then some .NONSELECTABLE
  else if n = 2 then some .FALSETICKER
  else if n = 3 then some .JITTERY
  else if n = 4 then some .UNSELECTED
  else if n = 5 then some .SELECTABLE
  else none

/-- Modelled from the spec: source mode enumeration (3 values). -/
inductive SourceMode where
  | CLIENT
  | PEER
  | REFCLOCK
deriving DecidableEq, Repr

/-- Modelled from the spec: the fallible `SourceMode(n)` conversion,
defined exactly on raw values 0-2. -/
def SourceMode.ofNat? (n : Nat) : Option SourceMode :=
  if n = 0 then some .CLIENT
  else if n = 1 then some .PEER
  else if n = 2 then some .REFCLOCK
  else none

/-! ### Record types (`pychrony.models`) -/

/-- Dataclass `TrackingStatus` of `models.py`; integer fields that the
validator range-checks are carried as unbounded integers, matching the
Python `int` the validator actually receives. -/
structure TrackingStatus where
  reference_id : Nat
  reference_id_name : String
  reference_ip : String
  stratum : Int
  leap_status : LeapStatus
  ref_time : PyFloat
  offset : PyFloat
  last_offset : PyFloat
  rms_offset : PyFloat
  frequency : PyFloat
  residual_freq : PyFloat
  skew : PyFloat
  root_delay : PyFloat
  root_dispersion : PyFloat
  update_interval : PyFloat
deriving DecidableEq, Repr

/-- Method `TrackingStatus.is_synchronized`:
`self.reference_id != 0 and self.stratum < 16`. -/
def TrackingStatus.is_synchronized (self : TrackingStatus) : Bool :=
  self.reference_id != 0 && decide (self.stratum < 16)

/-- Dataclass `Source` of `models.py`. -/
structure Source where
  address : String
  poll : Int
  stratum : Int
  state : SourceState
  mode : SourceMode
  flags : Nat
  reachability : Int
  last_sample_ago : Int
  orig_latest_meas : PyFloat
  latest_meas : PyFloat
  latest_meas_err : PyFloat
deriving DecidableEq, Repr

/-- Dataclass `SourceStats` of `models.py`. -/
structure SourceStats where
  reference_id : Nat
  address : String
  samples : Int
  runs : Int
  span : Int
  std_dev : PyFloat
  resid_freq : PyFloat
  skew : PyFloat
  offset : PyFloat
  offset_err : PyFloat
deriving DecidableEq, Repr

/-- Dataclass `RTCData` of `models.py`. -/
structure RTCData where
  ref_time : PyFloat
  samples : Int
  runs : Int
  span : Int
  offset : PyFloat
  freq_offset : PyFloat
deriving DecidableEq, Repr

/-! ### Validators (`_bindings.py`) -/

/-- Helper `_validate_finite_float(value, field_name)`. -/
def _validate_finite_float (value : PyFloat) (field_name : String) :
    Except PyErr Unit :=
  if value.isnan || value.isinf then
    .error (.data ("Invalid " ++ field_name ++ ": " ++ value.render))
  else .ok ()

/-- Helper `_validate_bounded_int(value, field_name, min_val, max_val)`. -/
def _validate_bounded_int (value : Int) (field_name : String)
    (min_val max_val : Int) : Except PyErr Unit :=
  if !(decide (min_val ≤ value) && decide (value ≤ max_val)) then
    .error (.data ("Invalid " ++ field_name ++ ": " ++ toString value))
  else .ok ()

/-- Helper `_validate_non_negative_int(value, field_name)`. -/
def _validate_non_negative_int (value : Int) (field_name : String) :
    Except PyErr Unit :=
  if value < 0 then
    .error (.data (field_name ++ " must be non-negative: " ++ toString value))
  else .ok ()

/-- The per-field finiteness loop
`for field in float_fields: if isnan(...) or isinf(...): raise ...`,
over an explicit (field name, value) list. -/
def checkFloatsFinite : List (String × PyFloat) → Except PyErr Unit
  | [] => .ok ()
  | (name, v) :: rest => do
    _validate_finite_float v name
    checkFloatsFinite rest

/-- The per-field sign loop
`for field in non_negative: if data[field] < 0: raise ...`. -/
def checkFloatsNonNegative : List (String × PyFloat) → Except PyErr Unit
  | [] => .ok ()
  | (name, v) :: rest =>
    if v.ltZero then
      .error (.data (name ++ " must be non-negative: " ++ v.render))
    else checkFloatsNonNegative rest

/-- The `float_fields` list of `_validate_tracking`, in source order. -/
def trackingFloatFields (d : TrackingStatus) : List (String × PyFloat) :=
  [("ref_time", d.ref_time), ("offset", d.offset),
   ("last_offset", d.last_offset), ("rms_offset", d.rms_offset),
   ("frequency", d.frequency), ("residual_freq", d.residual_freq),
   ("skew", d.skew), ("root_delay", d.root_delay),
   ("root_dispersion", d.root_dispersion),
   ("update_interval", d.update_interval)]

/-- The `non_negative` list of `_validate_tracking`, in source order. -/
def trackingNonNegativeFields (d : TrackingStatus) : List (String × PyFloat) :=
  [("ref_time", d.ref_time), ("rms_offset", d.rms_offset), ("skew", d.skew),
   ("root_delay", d.root_delay), ("root_dispersion", d.root_dispersion),
   ("update_interval", d.update_interval)]

/-- The stratum bounds check at the top of `_validate_tracking`
(`if not 0 <= data["stratum"] <= 15: raise ...`). -/
def trackingIntChecks (d : TrackingStatus) : Except PyErr Unit :=
  if !(decide (0 ≤ d.stratum) && decide (d.stratum ≤ 15)) then
    .error (.data ("Invalid stratum: " ++ toString d.stratum))
  else .ok ()

/-- Embedding of `_validate_tracking(data)`: stratum bounds, then float finiteness, then
non-negative floats (leap status is validated during enum conversion in
`_extract_tracking_fields`). -/
def _validate_tracking (d : TrackingStatus) : Except PyErr Unit := do
  trackingIntChecks d
  checkFloatsFinite (trackingFloatFields d)
  checkFloatsNonNegative (trackingNonNegativeFields d)

/-- The integer checks of `_validate_source`, in source order. -/
def sourceIntChecks (d : Source) : Except PyErr Unit := do
  _validate_bounded_int d.stratum "stratum" 0 15
  _validate_bounded_int d.reachability "reachability" 0 255
  _validate_non_negative_int d.last_sample_ago "last_sample_ago"

/-- The float-field list of `_validate_source`, in source order. -/
def sourceFloatFields (d : Source) : List (String × PyFloat) :=
  [("orig_latest_meas", d.orig_latest_meas), ("latest_meas", d.latest_meas),
   ("latest_meas_err", d.latest_meas_err)]

/-- The final sign check of `_validate_source`. -/
def sourceSignChecks (d : Source) : Except PyErr Unit :=
  if d.latest_meas_err.ltZero then
    .error (.data ("latest_meas_err must be non-negative: "
      ++ d.latest_meas_err.render))
  else .ok ()

/-- Embedding of `_validate_source(data)` (mode and state are validated during enum
conversion in `_get_source_from_record`). -/
def _validate_source (d : Source) : Except PyErr Unit := do
  sourceIntChecks d
  checkFloatsFinite (sourceFloatFields d)
  sourceSignChecks d

/-- The integer checks of `_validate_sourcestats`, in source order. -/
def sourcestatsIntChecks (d : SourceStats) : Except PyErr Unit := do
  _validate_non_negative_int d.samples "samples"
  _validate_non_negative_int d.runs "runs"
  _validate_non_negative_int d.span "span"

/-- The float-field list of `_validate_sourcestats`, in source order. -/
def sourcestatsFloatFields (d : SourceStats) : List (String × PyFloat) :=
  [("std_dev", d.std_dev), ("resid_freq", d.resid_freq), ("skew", d.skew),
   ("offset", d.offset), ("offset_err", d.offset_err)]

/-- The three sign checks of `_validate_sourcestats`, in source order. -/
def sourcestatsSignChecks (d : SourceStats) : Except PyErr Unit := do
  if d.std_dev.ltZero then
    throw (.data ("std_dev must be non-negative: " ++ d.std_dev.render))
  if d.skew.ltZero then
    throw (.data ("skew must be non-negative: " ++ d.skew.render))
  if d.offset_err.ltZero then
    throw (.data ("offset_err must be non-negative: " ++ d.offset_err.render))

/-- Embedding of `_validate_sourcestats(data)`. -/
def _validate_sourcestats (d : SourceStats) : Except PyErr Unit := do
  sourcestatsIntChecks d
  checkFloatsFinite (sourcestatsFloatFields d)
  sourcestatsSignChecks d

/-- The integer checks of `_validate_rtc`, in source order. -/
def rtcIntChecks (d : RTCData) : Except PyErr Unit := do
  _validate_non_negative_int d.samples "samples"
  _validate_non_negative_int d.runs "runs"
  _validate_non_negative_int d.span "span"

/-- The float-field list of `_validate_rtc`, in source order. -/
def rtcFloatFields (d : RTCData) : List (String × PyFloat) :=
  [("ref_time", d.ref_time), ("offset", d.offset),
   ("freq_offset", d.freq_offset)]

/-- The final sign check of `_validate_rtc`. -/
def rtcSignChecks (d : RTCData) : Except PyErr Unit :=
  if d.ref_time.ltZero then
    .error (.data ("ref_time must be non-negative: " ++ d.ref_time.render))
  else .ok ()

/-- Embedding of `_validate_rtc(data)`. -/
def _validate_rtc (d : RTCData) : Except PyErr Unit := do
  rtcIntChecks d
  checkFloatsFinite (rtcFloatFields d)
  rtcSignChecks d

/-! ### Field decoding (the `_get_*_field` helpers of `_bindings.py`)

The opaque libchrony session, once positioned over a decoded record, is
modelled by a `FieldEnv`: `chrony_get_field_index` plus the typed getters
that the decoder helpers wrap. -/

/-- The per-record field table of an active session. -/
structure FieldEnv where
  index : String → Int
  floatAt : Int → PyFloat
  uintAt : Int → Nat
  intAt : Int → Int
  stringAt : Int → Option String
  timespecAt : Int → Int × Int

/-- The not-found error raised by every field getter. -/
def fieldNotFound (name : String) : PyErr :=
  .data ("Field '" ++ name ++ "' not found (libchrony version mismatch?)")

/-- Embedding of `_get_float_field(session, name)`. -/
def _get_float_field (env : FieldEnv) (name : String) :
    Except PyErr PyFloat :=
  let index := env.index name
  if index < 0 then .error (fieldNotFound name)
  else .ok (env.floatAt index)

/-- Embedding of `_get_uinteger_field(session, name)`. -/
def _get_uinteger_field (env : FieldEnv) (name : String) :
    Except PyErr Nat :=
  let index := env.index name
  if index < 0 then .error (fieldNotFound name)
  else .ok (env.uintAt index)

/-- Embedding of `_get_integer_field(session, name)`. -/
def _get_integer_field (env : FieldEnv) (name : String) :
    Except PyErr Int :=
  let index := env.index name
  if index < 0 then .error (fieldNotFound name)
  else .ok (env.intAt index)

/-- Embedding of `_get_string_field(session, name)`: a NULL result decodes to the empty
string. -/
def _get_string_field (env : FieldEnv) (name : String) :
    Except PyErr String :=
  let index := env.index name
  if index < 0 then .error (fieldNotFound name)
  else
    match env.stringAt index with
    | none => .ok ""
    | some s => .ok s

/-- Embedding of `_get_timespec_field(session, name)`: the timespec converted through
`_timespec_to_float` (always a finite float). -/
def _get_timespec_field (env : FieldEnv) (name : String) :
    Except PyErr PyFloat :=
  let index := env.index name
  if index < 0 then .error (fieldNotFound name)
  else
    .ok (.fin (_timespec_to_float (env.timespecAt index).1
      (env.timespecAt index).2))

/-! ### Report extractors -/

/-- Embedding of `_extract_tracking_fields(session)`, reading fields in source order
(the two early reads, the leap-status conversion, then the dict literal in
evaluation order). -/
def _extract_tracking_fields (env : FieldEnv) :
    Except PyErr TrackingStatus := do
  let ref_id ← _get_uinteger_field env "reference ID"
  let leap_status_int ← _get_uinteger_field env "leap status"
  let leap_status ←
    match LeapStatus.ofNat? leap_status_int with
    | some l => pure l
    | none =>
      throw (.data ("Unknown leap_status value " ++ toString leap_status_int
        ++ ". This may indicate a newer chrony version - "
        ++ "please update pychrony."))
  let reference_ip ← _get_string_field env "address"
  let stratum ← _get_uinteger_field env "stratum"
  let ref_time ← _get_timespec_field env "reference time"
  let offset ← _get_float_field env "current correction"
  let last_offset ← _get_float_field env "last offset"
  let rms_offset ← _get_float_field env "RMS offset"
  let frequency ← _get_float_field env "frequency offset"
  let residual_freq ← _get_float_field env "residual frequency"
  let skew ← _get_float_field env "skew"
  let root_delay ← _get_float_field env "root delay"
  let root_dispersion ← _get_float_field env "root dispersion"
  let update_interval ← _get_float_field env "last update interval"
  pure
    { reference_id := ref_id
      reference_id_name := _ref_id_to_name ref_id
      reference_ip
      stratum := (stratum : Int)
      leap_status
      ref_time
      offset
      last_offset
      rms_offset
      frequency
      residual_freq
      skew
      root_delay
      root_dispersion
      update_interval }

/-- Embedding of `_get_source_from_record(session)`: address with reference-ID fallback,
the two enum conversions, then the dict literal in evaluation order. -/
def _get_source_from_record (env : FieldEnv) : Except PyErr Source := do
  let address0 ← _get_string_field env "address"
  let address ←
    if address0 = "" then do
      let ref_id ← _get_uinteger_field env "reference ID"
      pure (_ref_id_to_name ref_id)
    else pure address0
  let state_int ← _get_uinteger_field env "state"
  let mode_int ← _get_uinteger_field env "mode"
  let state ←
    match SourceState.ofNat? state_int with
    | some s => pure s
    | none =>
      throw (.data ("Unknown state value " ++ toString state_int
        ++ ". This may indicate a newer chrony version - "
        ++ "please update pychrony."))
  let mode ←
    match SourceMode.ofNat? mode_int with
    | some m => pure m
    | none =>
      throw (.data ("Unknown mode value " ++ toString mode_int
        ++ ". This may indicate a newer chrony version - "
        ++ "please update pychrony."))
  let poll ← _get_integer_field env "poll"
  let stratum ← _get_uinteger_field env "stratum"
  let flags ← _get_uinteger_field env "flags"
  let reachability ← _get_uinteger_field env "reachability"
  let last_sample_ago ← _get_uinteger_field env "last sample ago"
  let orig_latest_meas ← _get_float_field env "original last sample offset"
  let latest_meas ← _get_float_field env "adjusted last sample offset"
  let latest_meas_err ← _get_float_field env "last sample error"
  pure
    { address
      poll
      stratum := (stratum : Int)
      state
      mode
      flags
      reachability := (reachability : Int)
      last_sample_ago := (last_sample_ago : Int)
      orig_latest_meas
      latest_meas
      latest_meas_err }

/-- Embedding of `_get_sourcestats_from_record(session)`. -/
def _get_sourcestats_from_record (env : FieldEnv) :
    Except PyErr SourceStats := do
  let reference_id ← _get_uinteger_field env "reference ID"
  let address ← _get_string_field env "address"
  let samples ← _get_uinteger_field env "samples"
  let runs ← _get_uinteger_field env "runs"
  let span ← _get_uinteger_field env "span"
  let std_dev ← _get_float_field env "standard deviation"
  let resid_freq ← _get_float_field env "residual frequency"
  let skew ← _get_float_field env "skew"
  let offset ← _get_float_field env "offset"
  let offset_err ← _get_float_field env "offset error"
  pure
    { reference_id
      address
      samples := (samples : Int)
      runs := (runs : Int)
      span := (span : Int)
      std_dev
      resid_freq
      skew
      offset
      offset_err }

/-- Embedding of `_get_rtc_from_record(session)`. -/
def _get_rtc_from_record (env : FieldEnv) : Except PyErr RTCData := do
  let ref_time ← _get_timespec_field env "reference time"
  let samples ← _get_uinteger_field env "samples"
  let runs ← _get_uinteger_field env "runs"
  let span ← _get_uinteger_field env "span"
  let offset ← _get_float_field env "offset"
  let freq_offset ← _get_float_field env "frequency offset"
  pure
    { ref_time
      samples := (samples : Int)
      runs := (runs : Int)
      span := (span : Int)
      offset
      freq_offset }

/-! ### Socket path resolution and the session protocol -/

/-- The filesystem predicates consumed by the bindings: `os.path.exists`
and `os.access(path, R_OK | W_OK)`. -/
structure FS where
  pathExists : String → Bool
  rwAccess : String → Bool

/-- Embedding of `DEFAULT_SOCKET_PATHS` (tried in order). -/
def DEFAULT_SOCKET_PATHS : List String :=
  ["/run/chrony/chronyd.sock", "/var/run/chrony/chronyd.sock"]

/-- Embedding of `_find_socket_path(socket_path)`: an explicit path is returned
verbatim; otherwise the first existing default path wins; otherwise a
Connection error listing both tried paths. -/
def _find_socket_path (fs : FS) (socket_path : Option String) :
    Except PyErr String :=
  match socket_path with
  | some p => .ok p
  | none =>
    match DEFAULT_SOCKET_PATHS.find? fs.pathExists with
    | some path => .ok path
    | none =>
      .error (.connection ("chronyd socket not found. Tried: "
        ++ String.intercalate ", " DEFAULT_SOCKET_PATHS
        ++ ". Is chronyd running?"))

/-- Deterministic model of one query's interaction with the libchrony C
API: the status code each C call would return, the scripted
pending-response lists that drive the `chrony_needs_response` loops, the
record count, and the per-record field tables.  `initSetsSession` records
whether `chrony_init_session` wrote a non-NULL session pointer (the
condition the `finally` block checks before deinit). -/
structure LibBehavior where
  libraryAvailable : Bool
  openResult : Int
  initResult : Int
  initSetsSession : Bool
  requestNumResult : Int
  countDrain : List Int
  numRecords : Int
  requestRecordResult : Nat → Int
  recordDrain : Nat → List Int
  recordEnv : Nat → FieldEnv

/-- The loop `while chrony_needs_response(s): err = chrony_process_response(s)`:
`needs_response` stays true while scripted statuses remain, and any
non-zero status raises the given Data error. -/
def drainResponses (msg : String) : List Int → Except PyErr Unit
  | [] => .ok ()
  | e :: rest =>
    if e ≠ 0 then .error (.data msg) else drainResponses msg rest

/-- The prologue repeated verbatim at the top of all four public query
operations: `_check_library_available()`, `_find_socket_path`, and
`chrony_open_socket` with its permission/connection error translation. -/
def openSocket (fs : FS) (socket_path : Option String) (beh : LibBehavior) :
    Except PyErr String := do
  if !beh.libraryAvailable then
    throw (.library ("libchrony bindings not available. "
      ++ "Ensure libchrony and libchrony-devel are installed and "
      ++ "the CFFI bindings have been compiled. "
      ++ "Install with: pip install pychrony (on a system with "
      ++ "libchrony-devel)"))
  let actual_path ← _find_socket_path fs socket_path
  if beh.openResult < 0 then
    if beh.openResult == -13
        || (fs.pathExists actual_path && !fs.rwAccess actual_path) then
      throw (.permission ("Permission denied accessing " ++ actual_path
        ++ ". Run as root or add user to chrony group."))
    else
      throw (.connection ("Failed to connect to chronyd at " ++ actual_path
        ++ ". Is chronyd running?"))
  pure actual_path

/-- The body of the `try` block of `get_tracking`. -/
def trackingBody (beh : LibBehavior) : Except PyErr TrackingStatus := do
  if beh.initResult ≠ 0 then
    throw (.connection "Failed to initialize chrony session")
  if beh.requestNumResult ≠ 0 then
    throw (.data "Failed to request tracking report")
  drainResponses "Failed to process tracking response" beh.countDrain
  if beh.numRecords < 1 then
    throw (.data "No tracking records available")
  if beh.requestRecordResult 0 ≠ 0 then
    throw (.data "Failed to request tracking record")
  drainResponses "Failed to process tracking record" (beh.recordDrain 0)
  let data ← _extract_tracking_fields (beh.recordEnv 0)
  _validate_tracking data
  pure data

/-- Embedding of `get_tracking(socket_path)`: the call result paired with whether
`chrony_deinit_session` ran.  The `finally` block runs whenever the `try`
block was entered (the prologue succeeded) and deinits exactly when the
session pointer is non-NULL. -/
def get_tracking (fs : FS) (socket_path : Option String)
    (beh : LibBehavior) : Except PyErr TrackingStatus × Bool :=
  match openSocket fs socket_path beh with
  | .error e => (.error e, false)
  | .ok _ => (trackingBody beh, beh.initSetsSession)

/-- The per-record fetch loop of `get_sources` (`for i in range(num_records)`). -/
def sourcesLoop (beh : LibBehavior) : List Nat → Except PyErr (List Source)
  | [] => pure []
  | i :: rest => do
    if beh.requestRecordResult i ≠ 0 then
      throw (.data ("Failed to request source record " ++ toString i))
    drainResponses ("Failed to process source record " ++ toString i)
      (beh.recordDrain i)
    let data ← _get_source_from_record (beh.recordEnv i)
    _validate_source data
    let tail ← sourcesLoop beh rest
    pure (data :: tail)

/-- The body of the `try` block of `get_sources`; a record count below 1
returns the empty list (not an error). -/
def sourcesBody (beh : LibBehavior) : Except PyErr (List Source) := do
  if beh.initResult ≠ 0 then
    throw (.connection "Failed to initialize chrony session")
  if beh.requestNumResult ≠ 0 then
    throw (.data "Failed to request sources report")
  drainResponses "Failed to process sources response" beh.countDrain
  if beh.numRecords < 1 then
    pure []
  else
    sourcesLoop beh (List.range beh.numRecords.toNat)

/-- Embedding of `get_sources(socket_path)` with its deinit flag. -/
def get_sources (fs : FS) (socket_path : Option String)
    (beh : LibBehavior) : Except PyErr (List Source) × Bool :=
  match openSocket fs socket_path beh with
  | .error e => (.error e, false)
  | .ok _ => (sourcesBody beh, beh.initSetsSession)

/-- The per-record fetch loop of `get_source_stats`. -/
def sourcestatsLoop (beh : LibBehavior) :
    List Nat → Except PyErr (List SourceStats)
  | [] => pure []
  | i :: rest => do
    if beh.requestRecordResult i ≠ 0 then
      throw (.data ("Failed to request sourcestats record " ++ toString i))
    drainResponses ("Failed to process sourcestats record " ++ toString i)
      (beh.recordDrain i)
    let data ← _get_sourcestats_from_record (beh.recordEnv i)
    _validate_sourcestats data
    let tail ← sourcestatsLoop beh rest
    pure (data :: tail)

/-- The body of the `try` block of `get_source_stats`. -/
def sourcestatsBody (beh : LibBehavior) : Except PyErr (List SourceStats) := do
  if beh.initResult ≠ 0 then
    throw (.connection "Failed to initialize chrony session")
  if beh.requestNumResult ≠ 0 then
    throw (.data "Failed to request sourcestats report")
  drainResponses "Failed to process sourcestats response" beh.countDrain
  if beh.numRecords < 1 then
    pure []
  else
    sourcestatsLoop beh (List.range beh.numRecords.toNat)

/-- Embedding of `get_source_stats(socket_path)` with its deinit flag. -/
def get_source_stats (fs : FS) (socket_path : Option String)
    (beh : LibBehavior) : Except PyErr (List SourceStats) × Bool :=
  match openSocket fs socket_path beh with
  | .error e => (.error e, false)
  | .ok _ => (sourcestatsBody beh, beh.initSetsSession)

/-- The message `get_rtc_data` uses both when no rtcdata record is
reported and when the per-record drain fails. -/
def rtcUnavailableMsg : String :=
  "RTC tracking is not available. Ensure RTC tracking is "
    ++ "enabled in chronyd configuration (rtcsync or rtcfile directive)."

/-- The body of the `try` block of `get_rtc_data`; a record count below 1
and any failure while draining the record both raise the
RTC-configuration Data error. -/
def rtcBody (beh : LibBehavior) : Except PyErr RTCData := do
  if beh.initResult ≠ 0 then
    throw (.connection "Failed to initialize chrony session")
  if beh.requestNumResult ≠ 0 then
    throw (.data "Failed to request rtcdata report")
  drainResponses "Failed to process rtcdata response" beh.countDrain
  if beh.numRecords < 1 then
    throw (.data rtcUnavailableMsg)
  if beh.requestRecordResult 0 ≠ 0 then
    throw (.data "Failed to request rtcdata record")
  drainResponses rtcUnavailableMsg (beh.recordDrain 0)
  let data ← _get_rtc_from_record (beh.recordEnv 0)
  _validate_rtc data
  pure data

/-- Embedding of `get_rtc_data(socket_path)` with its deinit flag. -/
def get_rtc_data (fs : FS) (socket_path : Option String)
    (beh : LibBehavior) : Except PyErr RTCData × Bool :=
  match openSocket fs socket_path beh with
  | .error e => (.error e, false)
  | .ok _ => (rtcBody beh, beh.initSetsSession)

/-- The field names `_extract_tracking_fields` looks up. -/
def trackingFieldNames : List String :=
  ["reference ID", "leap status", "address", "stratum", "reference time",
   "current correction", "last offset", "RMS offset", "frequency offset",
   "residual frequency", "skew", "root delay", "root dispersion",
   "last update interval"]

/-- The field names `_get_source_from_record` looks up. -/
def sourceFieldNames : List String :=
  ["address", "reference ID", "state", "mode", "poll", "stratum", "flags",
   "reachability", "last sample ago", "original last sample offset",
   "adjusted last sample offset", "last sample error"]

/-- Whether every named field resolves to a valid (non-negative) index. -/
def envHasFields (env : FieldEnv) (names : List String) : Bool :=
  names.all (fun n => decide (0 ≤ env.index n))

/-! ### Concrete sample records (used to witness satisfiability of the
hypotheses of the claim theorems; field values follow the test fixtures in
`tests/conftest.py`) -/

/-- A valid tracking record. -/
def sampleTracking : TrackingStatus where
  reference_id := 0x7F000001
  reference_id_name := "127.0.0.1"
  reference_ip := "127.0.0.1"
  stratum := 2
  leap_status := .NORMAL
  ref_time := .fin 1705320000
  offset := .fin 123
  last_offset := .fin 111
  rms_offset := .fin 1
  frequency := .fin 1234
  residual_freq := .fin 1
  skew := .fin 5
  root_delay := .fin 1234
  root_dispersion := .fin 2345
  update_interval := .fin 64

/-- A valid source record. -/
def sampleSource : Source where
  address := "192.168.1.100"
  poll := 6
  stratum := 2
  state := .SELECTED
  mode := .CLIENT
  flags := 0
  reachability := 255
  last_sample_ago := 32
  orig_latest_meas := .fin 123
  latest_meas := .fin 123
  latest_meas_err := .fin 1

/-- A valid sourcestats record. -/
def sampleSourceStats : SourceStats where
  reference_id := 0xC0A80164
  address := "192.168.1.100"
  samples := 8
  runs := 3
  span := 512
  std_dev := .fin 1
  resid_freq := .fin 1
  skew := .fin 5
  offset := .fin 123
  offset_err := .fin 1

/-- A valid RTC record. -/
def sampleRTC : RTCData where
  ref_time := .fin 1705320000
  samples := 10
  runs := 4
  span := 86400
  offset := .fin 123456
  freq_offset := .fin (-1234)

/-- A field table in which every lookup succeeds with benign values
(leap status 2, state 2, mode 2, etc.). -/
def sampleFieldEnv : FieldEnv where
  index := fun _ => 0
  floatAt := fun _ => .fin 1
  uintAt := fun _ => 2
  intAt := fun _ => 6
  stringAt := fun _ => some "192.168.1.100"
  timespecAt := fun _ => (1705320000, 0)

/-- A field table whose unsigned-integer fields all read 5 (an
out-of-range leap status). -/
def sampleBadLeapEnv : FieldEnv where
  index := fun _ => 0
  floatAt := fun _ => .fin 1
  uintAt := fun _ => 5
  intAt := fun _ => 6
  stringAt := fun _ => some "192.168.1.100"
  timespecAt := fun _ => (1705320000, 0)

/-- A behaviour in which the prologue and the count phase succeed and
zero records are reported. -/
def sampleBehaviorNoRecords : LibBehavior where
  libraryAvailable := true
  openResult := 3
  initResult := 0
  initSetsSession := true
  requestNumResult := 0
  countDrain := [0]
  numRecords := 0
  requestRecordResult := fun _ => 0
  recordDrain := fun _ => [0]
  recordEnv := fun _ => sampleFieldEnv

/-- An all-pass filesystem model. -/
def sampleFS : FS where
  pathExists := fun _ => true
  rwAccess := fun _ => true

/-! ### Helper lemmas -/

theorem dropWhile_append_of_eq_nil {p : Nat → Bool} {l₁ : List Nat}
    (l₂ : List Nat) (h : l₁.dropWhile p = []) :
    (l₁ ++ l₂).dropWhile p = l₂.dropWhile p := by
  induction l₁ with
  | nil => rfl
  | cons a t ih =>
    rw [List.dropWhile_cons] at h
    by_cases ha : p a
    · simp only [List.cons_append, List.dropWhile_cons, ha, if_true]
      exact ih (by simpa [ha] using h)
    · simp [ha] at h

theorem dropWhile_append_of_ne_nil {p : Nat → Bool} {l₁ : List Nat}
    (l₂ : List Nat) (h : l₁.dropWhile p ≠ []) :
    (l₁ ++ l₂).dropWhile p = l₁.dropWhile p ++ l₂ := by
  induction l₁ with
  | nil => exact absurd rfl h
  | cons a t ih =>
    rw [List.dropWhile_cons] at h
    by_cases ha : p a
    · simp only [ha, if_true] at h
      simp only [List.cons_append, List.dropWhile_cons, ha, if_true]
      rw [ih h]
    · simp [List.dropWhile_cons, ha]

theorem dropTrailingZeros_cons (b : Nat) (bs : List Nat) :
    dropTrailingZeros (b :: bs) =
      match dropTrailingZeros bs with
      | [] => if b == 0 then [] else [b]
      | r => b :: r := rfl

theorem rstripNulls_eq_dropTrailingZeros (bs : List Nat) :
    rstripNulls bs = dropTrailingZeros bs := by
  induction bs with
  | nil => rfl
  | cons b bs ih =>
    show ((b :: bs).reverse.dropWhile (· == 0)).reverse = _
    rw [List.reverse_cons]
    by_cases h : bs.reverse.dropWhile (· == 0) = []
    · have hbs : dropTrailingZeros bs = [] := by
        rw [← ih]; show (bs.reverse.dropWhile (· == 0)).reverse = []
        rw [h]; rfl
      rw [dropWhile_append_of_eq_nil [b] h]
      show (List.dropWhile (· == 0) [b]).reverse = dropTrailingZeros (b :: bs)
      rw [dropTrailingZeros_cons, hbs]
      by_cases hb : b = 0
      · subst hb; rfl
      · have hb' : (b == 0) = false := by simpa using hb
        simp [List.dropWhile_cons, hb']
    · have hbs : dropTrailingZeros bs ≠ [] := by
        rw [← ih]
        show (bs.reverse.dropWhile (· == 0)).reverse ≠ []
        simpa using h
      rw [dropWhile_append_of_ne_nil [b] h, List.reverse_append]
      show b :: rstripNulls bs = dropTrailingZeros (b :: bs)
      rw [ih, dropTrailingZeros_cons]
      cases hm : dropTrailingZeros bs with
      | nil => exact absurd hm hbs
      | cons c cs => rfl

theorem exceptBind_ok {ε α β : Type} (x : α) (f : α → Except ε β) :
    (Except.ok x >>= f) = f x := rfl

theorem exceptBind_error {ε α β : Type} (e : ε) (f : α → Except ε β) :
    ((Except.error e : Except ε α) >>= f) = Except.error e := rfl

theorem exceptThrow_eq {ε α : Type} (e : ε) :
    (throw e : Except ε α) = Except.error e := rfl

theorem seq_ok_iff {ε : Type} {a b : Except ε Unit} :
    (a >>= fun _ => b) = Except.ok () ↔ a = Except.ok () ∧ b = Except.ok () := by
  cases a with
  | error e => simp [exceptBind_error]
  | ok x => cases x; simp [exceptBind_ok]

theorem checkFloatsFinite_ok_iff (l : List (String × PyFloat)) :
    checkFloatsFinite l = .ok () ↔ l.all (fun p => p.2.isFinite) = true := by
  induction l with
  | nil => simp [checkFloatsFinite]
  | cons p rest ih =>
    obtain ⟨name, v⟩ := p
    show (_validate_finite_float v name >>= fun _ => checkFloatsFinite rest)
        = .ok () ↔ _
    rw [seq_ok_iff, List.all_cons]
    unfold _validate_finite_float
    by_cases h : (v.isnan || v.isinf) = true
    · rw [if_pos h]
      have hv : PyFloat.isFinite v = false := by simp [PyFloat.isFinite, h]
      constructor
      · intro hc; exact Except.noConfusion hc.1
      · intro hc; rw [hv] at hc; simp at hc
    · rw [if_neg h]
      have hv : PyFloat.isFinite v = true := by
        simp only [Bool.not_eq_true] at h
        simp [PyFloat.isFinite, h]
      rw [hv]
      simp [ih]

theorem checkFloatsFinite_error_of_find {l : List (String × PyFloat)}
    {name : String} {v : PyFloat}
    (h : l.find? (fun p => p.2.isnan || p.2.isinf) = some (name, v)) :
    checkFloatsFinite l = .error (.data ("Invalid " ++ name ++ ": " ++ v.render)) := by
  induction l with
  | nil => simp [List.find?] at h
  | cons p rest ih =>
    obtain ⟨n, w⟩ := p
    show (_validate_finite_float w n >>= fun _ => checkFloatsFinite rest) = _
    by_cases hw : (w.isnan || w.isinf) = true
    · simp only [List.find?_cons, hw, Option.some.injEq, Prod.mk.injEq] at h
      obtain ⟨rfl, rfl⟩ := h
      unfold _validate_finite_float
      rw [if_pos hw, exceptBind_error]
    · simp only [Bool.not_eq_true] at hw
      simp only [List.find?_cons, hw] at h
      unfold _validate_finite_float
      rw [if_neg (by simp [hw]), exceptBind_ok]
      exact ih h

theorem checkFloatsNonNegative_ok_iff (l : List (String × PyFloat)) :
    checkFloatsNonNegative l = .ok ()
      ↔ l.all (fun p => !p.2.ltZero) = true := by
  induction l with
  | nil => simp [checkFloatsNonNegative]
  | cons p rest ih =>
    obtain ⟨name, v⟩ := p
    unfold checkFloatsNonNegative
    by_cases h : v.ltZero = true
    · simp [h]
    · simp only [Bool.not_eq_true] at h
      simp [h, ih]

theorem checkFloatsNonNegative_error_of_find {l : List (String × PyFloat)}
    {name : String} {v : PyFloat}
    (h : l.find? (fun p => p.2.ltZero) = some (name, v)) :
    checkFloatsNonNegative l
      = .error (.data (name ++ " must be non-negative: " ++ v.render)) := by
  induction l with
  | nil => simp [List.find?] at h
  | cons p rest ih =>
    obtain ⟨n, w⟩ := p
    unfold checkFloatsNonNegative
    by_cases hw : w.ltZero = true
    · simp only [List.find?_cons, hw, Option.some.injEq, Prod.mk.injEq] at h
      obtain ⟨rfl, rfl⟩ := h
      rw [if_pos hw]
    · simp only [Bool.not_eq_true] at hw
      simp only [List.find?_cons, hw] at h
      rw [if_neg (by simp [hw])]
      exact ih h

theorem trackingIntChecks_ok_iff (d : TrackingStatus) :
    trackingIntChecks d = .ok () ↔ 0 ≤ d.stratum ∧ d.stratum ≤ 15 := by
  unfold trackingIntChecks
  by_cases h1 : 0 ≤ d.stratum <;> by_cases h2 : d.stratum ≤ 15 <;>
    simp [h1, h2]

theorem validate_bounded_int_ok_iff (value : Int) (fn : String)
    (lo hi : Int) :
    _validate_bounded_int value fn lo hi = .ok () ↔ lo ≤ value ∧ value ≤ hi := by
  unfold _validate_bounded_int
  by_cases h1 : lo ≤ value <;> by_cases h2 : value ≤ hi <;> simp [h1, h2]

theorem validate_non_negative_int_ok_iff (value : Int) (fn : String) :
    _validate_non_negative_int value fn = .ok () ↔ ¬value < 0 := by
  unfold _validate_non_negative_int
  by_cases h : value < 0 <;> simp [h]

theorem exceptPure_eq {ε α : Type} (x : α) :
    (pure x : Except ε α) = Except.ok x := rfl

theorem validate_tracking_ok_iff (d : TrackingStatus) :
    _validate_tracking d = .ok ()
      ↔ (0 ≤ d.stratum ∧ d.stratum ≤ 15)
        ∧ (trackingFloatFields d).all (fun p => p.2.isFinite) = true
        ∧ (trackingNonNegativeFields d).all (fun p => !p.2.ltZero) = true := by
  show (trackingIntChecks d >>= fun _ =>
      checkFloatsFinite (trackingFloatFields d) >>= fun _ =>
        checkFloatsNonNegative (trackingNonNegativeFields d)) = .ok () ↔ _
  rw [seq_ok_iff, seq_ok_iff, trackingIntChecks_ok_iff,
    checkFloatsFinite_ok_iff, checkFloatsNonNegative_ok_iff]

theorem sourceIntChecks_ok_iff (d : Source) :
    sourceIntChecks d = .ok ()
      ↔ (0 ≤ d.stratum ∧ d.stratum ≤ 15)
        ∧ (0 ≤ d.reachability ∧ d.reachability ≤ 255)
        ∧ ¬d.last_sample_ago < 0 := by
  show (_validate_bounded_int d.stratum "stratum" 0 15 >>= fun _ =>
      _validate_bounded_int d.reachability "reachability" 0 255 >>= fun _ =>
        _validate_non_negative_int d.last_sample_ago "last_sample_ago")
      = .ok () ↔ _
  rw [seq_ok_iff, seq_ok_iff, validate_bounded_int_ok_iff,
    validate_bounded_int_ok_iff, validate_non_negative_int_ok_iff]

theorem sourceSignChecks_ok_iff (d : Source) :
    sourceSignChecks d = .ok () ↔ d.latest_meas_err.ltZero = false := by
  unfold sourceSignChecks
  by_cases h : d.latest_meas_err.ltZero <;> simp [h]

theorem validate_source_ok_iff (d : Source) :
    _validate_source d = .ok ()
      ↔ ((0 ≤ d.stratum ∧ d.stratum ≤ 15)
          ∧ (0 ≤ d.reachability ∧ d.reachability ≤ 255)
          ∧ ¬d.last_sample_ago < 0)
        ∧ (sourceFloatFields d).all (fun p => p.2.isFinite) = true
        ∧ d.latest_meas_err.ltZero = false := by
  show (sourceIntChecks d >>= fun _ =>
      checkFloatsFinite (sourceFloatFields d) >>= fun _ =>
        sourceSignChecks d) = .ok () ↔ _
  rw [seq_ok_iff, seq_ok_iff, sourceIntChecks_ok_iff,
    checkFloatsFinite_ok_iff, sourceSignChecks_ok_iff]

theorem sourcestatsIntChecks_ok_iff (d : SourceStats) :
    sourcestatsIntChecks d = .ok ()
      ↔ ¬d.samples < 0 ∧ ¬d.runs < 0 ∧ ¬d.span < 0 := by
  show (_validate_non_negative_int d.samples "samples" >>= fun _ =>
      _validate_non_negative_int d.runs "runs" >>= fun _ =>
        _validate_non_negative_int d.span "span") = .ok () ↔ _
  rw [seq_ok_iff, seq_ok_iff, validate_non_negative_int_ok_iff,
    validate_non_negative_int_ok_iff, validate_non_negative_int_ok_iff]

theorem sourcestatsSignChecks_ok_iff (d : SourceStats) :
    sourcestatsSignChecks d = .ok ()
      ↔ d.std_dev.ltZero = false ∧ d.skew.ltZero = false
        ∧ d.offset_err.ltZero = false := by
  unfold sourcestatsSignChecks
  by_cases h1 : d.std_dev.ltZero <;> by_cases h2 : d.skew.ltZero <;>
    by_cases h3 : d.offset_err.ltZero <;>
      simp [h1, h2, h3, exceptThrow_eq, exceptBind_ok, exceptBind_error,
        exceptPure_eq]

theorem validate_sourcestats_ok_iff (d : SourceStats) :
    _validate_sourcestats d = .ok ()
      ↔ (¬d.samples < 0 ∧ ¬d.runs < 0 ∧ ¬d.span < 0)
        ∧ (sourcestatsFloatFields d).all (fun p => p.2.isFinite) = true
        ∧ (d.std_dev.ltZero = false ∧ d.skew.ltZero = false
            ∧ d.offset_err.ltZero = false) := by
  show (sourcestatsIntChecks d >>= fun _ =>
      checkFloatsFinite (sourcestatsFloatFields d) >>= fun _ =>
        sourcestatsSignChecks d) = .ok () ↔ _
  rw [seq_ok_iff, seq_ok_iff, sourcestatsIntChecks_ok_iff,
    checkFloatsFinite_ok_iff, sourcestatsSignChecks_ok_iff]

theorem rtcIntChecks_ok_iff (d : RTCData) :
    rtcIntChecks d = .ok ()
      ↔ ¬d.samples < 0 ∧ ¬d.runs < 0 ∧ ¬d.span < 0 := by
  show (_validate_non_negative_int d.samples "samples" >>= fun _ =>
      _validate_non_negative_int d.runs "runs" >>= fun _ =>
        _validate_non_negative_int d.span "span") = .ok () ↔ _
  rw [seq_ok_iff, seq_ok_iff, validate_non_negative_int_ok_iff,
    validate_non_negative_int_ok_iff, validate_non_negative_int_ok_iff]

theorem rtcSignChecks_ok_iff (d : RTCData) :
    rtcSignChecks d = .ok () ↔ d.ref_time.ltZero = false := by
  unfold rtcSignChecks
  by_cases h : d.ref_time.ltZero <;> simp [h]

theorem validate_rtc_ok_iff (d : RTCData) :
    _validate_rtc d = .ok ()
      ↔ (¬d.samples < 0 ∧ ¬d.runs < 0 ∧ ¬d.span < 0)
        ∧ (rtcFloatFields d).all (fun p => p.2.isFinite) = true
        ∧ d.ref_time.ltZero = false := by
  show (rtcIntChecks d >>= fun _ =>
      checkFloatsFinite (rtcFloatFields d) >>= fun _ =>
        rtcSignChecks d) = .ok () ↔ _
  rw [seq_ok_iff, seq_ok_iff, rtcIntChecks_ok_iff,
    checkFloatsFinite_ok_iff, rtcSignChecks_ok_iff]

theorem exceptBind_ite {ε α β : Type} (c : Prop) [Decidable c] (a b : α)
    (f : α → Except ε β) :
    ((if c then (.ok a : Except ε α) else .ok b) >>= f)
      = f (if c then a else b) := by
  by_cases h : c <;> simp [h, exceptBind_ok]

theorem drainResponses_ok_of_all (msg : String) (l : List Int)
    (h : l.all (fun e => e == 0) = true) :
    drainResponses msg l = .ok () := by
  induction l with
  | nil => rfl
  | cons e rest ih =>
    simp only [List.all_cons, Bool.and_eq_true, beq_iff_eq] at h
    unfold drainResponses
    rw [if_neg (by simp [h.1])]
    exact ih h.2

theorem drainResponses_error_of_any (msg : String) (l : List Int)
    (h : l.any (fun e => e != 0) = true) :
    drainResponses msg l = .error (.data msg) := by
  induction l with
  | nil => simp at h
  | cons e rest ih =>
    simp only [List.any_cons, Bool.or_eq_true, bne_iff_ne] at h
    unfold drainResponses
    by_cases he : e ≠ 0
    · rw [if_pos he]
    · rw [if_neg he]
      apply ih
      rcases h with h | h
      · exact absurd h he
      · simpa using h

theorem get_float_ok {env : FieldEnv} {name : String}
    (h : 0 ≤ env.index name) :
    _get_float_field env name = .ok (env.floatAt (env.index name)) := by
  unfold _get_float_field
  have hn : ¬env.index name < 0 := by omega
  simp [hn]

theorem get_uinteger_ok {env : FieldEnv} {name : String}
    (h : 0 ≤ env.index name) :
    _get_uinteger_field env name = .ok (env.uintAt (env.index name)) := by
  unfold _get_uinteger_field
  have hn : ¬env.index name < 0 := by omega
  simp [hn]

theorem get_integer_ok {env : FieldEnv} {name : String}
    (h : 0 ≤ env.index name) :
    _get_integer_field env name = .ok (env.intAt (env.index name)) := by
  unfold _get_integer_field
  have hn : ¬env.index name < 0 := by omega
  simp [hn]

theorem get_string_ok {env : FieldEnv} {name : String}
    (h : 0 ≤ env.index name) :
    _get_string_field env name
      = .ok ((env.stringAt (env.index name)).getD "") := by
  unfold _get_string_field
  have hn : ¬env.index name < 0 := by omega
  simp only [hn, if_false]
  cases env.stringAt (env.index name) <;> simp [Option.getD]

theorem get_timespec_ok {env : FieldEnv} {name : String}
    (h : 0 ≤ env.index name) :
    _get_timespec_field env name
      = .ok (.fin (_timespec_to_float (env.timespecAt (env.index name)).1
          (env.timespecAt (env.index name)).2)) := by
  unfold _get_timespec_field
  have hn : ¬env.index name < 0 := by omega
  simp [hn]

theorem extract_tracking_of_fields (env : FieldEnv)
    (h : envHasFields env trackingFieldNames = true) :
    _extract_tracking_fields env =
      (match LeapStatus.ofNat? (env.uintAt (env.index "leap status")) with
       | some l => .ok
          { reference_id := env.uintAt (env.index "reference ID")
            reference_id_name :=
              _ref_id_to_name (env.uintAt (env.index "reference ID"))
            reference_ip := (env.stringAt (env.index "address")).getD ""
            stratum := (env.uintAt (env.index "stratum") : Int)
            leap_status := l
            ref_time := .fin (_timespec_to_float
              (env.timespecAt (env.index "reference time")).1
              (env.timespecAt (env.index "reference time")).2)
            offset := env.floatAt (env.index "current correction")
            last_offset := env.floatAt (env.index "last offset")
            rms_offset := env.floatAt (env.index "RMS offset")
            frequency := env.floatAt (env.index "frequency offset")
            residual_freq := env.floatAt (env.index "residual frequency")
            skew := env.floatAt (env.index "skew")
            root_delay := env.floatAt (env.index "root delay")
            root_dispersion := env.floatAt (env.index "root dispersion")
            update_interval :=
              env.floatAt (env.index "last update interval") }
       | none => .error (.data ("Unknown leap_status value "
            ++ toString (env.uintAt (env.index "leap status"))
            ++ ". This may indicate a newer chrony version - "
            ++ "please update pychrony."))) := by
  simp only [envHasFields, trackingFieldNames, List.all_cons, List.all_nil,
    Bool.and_eq_true, decide_eq_true_eq, and_true] at h
  obtain ⟨h1, h2, h3, h4, h5, h6, h7, h8, h9, h10, h11, h12, h13, h14⟩ := h
  simp only [_extract_tracking_fields, get_uinteger_ok h1,
    get_uinteger_ok h2, get_string_ok h3, get_uinteger_ok h4,
    get_timespec_ok h5, get_float_ok h6, get_float_ok h7, get_float_ok h8,
    get_float_ok h9, get_float_ok h10, get_float_ok h11, get_float_ok h12,
    get_float_ok h13, get_float_ok h14, exceptBind_ok, exceptPure_eq]
  cases LeapStatus.ofNat? (env.uintAt (env.index "leap status")) with
  | some l => simp only [exceptBind_ok, exceptPure_eq]
  | none => simp only [exceptThrow_eq, exceptBind_error]

theorem extract_source_of_fields (env : FieldEnv)
    (h : envHasFields env sourceFieldNames = true) :
    _get_source_from_record env =
      (match SourceState.ofNat? (env.uintAt (env.index "state")) with
       | none => .error (.data ("Unknown state value "
            ++ toString (env.uintAt (env.index "state"))
            ++ ". This may indicate a newer chrony version - "
            ++ "please update pychrony."))
       | some s =>
         match SourceMode.ofNat? (env.uintAt (env.index "mode")) with
         | none => .error (.data ("Unknown mode value "
              ++ toString (env.uintAt (env.index "mode"))
              ++ ". This may indicate a newer chrony version - "
              ++ "please update pychrony."))
         | some m => .ok
            { address :=
                if (env.stringAt (env.index "address")).getD "" = "" then
                  _ref_id_to_name (env.uintAt (env.index "reference ID"))
                else (env.stringAt (env.index "address")).getD ""
              poll := env.intAt (env.index "poll")
              stratum := (env.uintAt (env.index "stratum") : Int)
              state := s
              mode := m
              flags := env.uintAt (env.index "flags")
              reachability := (env.uintAt (env.index "reachability") : Int)
              last_sample_ago :=
                (env.uintAt (env.index "last sample ago") : Int)
              orig_latest_meas :=
                env.floatAt (env.index "original last sample offset")
              latest_meas :=
                env.floatAt (env.index "adjusted last sample offset")
              latest_meas_err :=
                env.floatAt (env.index "last sample error") }) := by
  simp only [envHasFields, sourceFieldNames, List.all_cons, List.all_nil,
    Bool.and_eq_true, decide_eq_true_eq, and_true] at h
  obtain ⟨h1, h2, h3, h4, h5, h6, h7, h8, h9, h10, h11, h12⟩ := h
  simp only [_get_source_from_record, get_string_ok h1, get_uinteger_ok h2,
    get_uinteger_ok h3, get_uinteger_ok h4, get_integer_ok h5,
    get_uinteger_ok h6, get_uinteger_ok h7, get_uinteger_ok h8,
    get_uinteger_ok h9, get_float_ok h10, get_float_ok h11,
    get_float_ok h12, exceptBind_ok, exceptPure_eq, exceptBind_ite]
  cases SourceState.ofNat? (env.uintAt (env.index "state")) with
  | none => simp only [exceptThrow_eq, exceptBind_error, ite_self]
  | some s =>
    simp only [exceptBind_ok, exceptPure_eq]
    cases SourceMode.ofNat? (env.uintAt (env.index "mode")) with
    | none => simp only [exceptThrow_eq, exceptBind_error, ite_self]
    | some m =>
      simp only [exceptBind_ok, exceptPure_eq]
      by_cases hc : (env.stringAt (env.index "address")).getD "" = "" <;>
        simp [hc]

/-! ### Claim theorems: pure functions -/

/-- C1: for every 32-bit value whose four big-endian bytes are each 0 or
printable ASCII, `_ref_id_to_name` returns the ASCII decoding with trailing
null bytes stripped; for every other value it returns the dotted-quad of the
four big-endian bytes joined by "."; with the six concrete values from the
spec. -/
theorem refIdToName_correct :
    (∀ x : Nat,
      ((refIdBytes x).all isNameByte = true →
        _ref_id_to_name x =
          String.mk ((dropTrailingZeros (refIdBytes x)).map Char.ofNat))
      ∧ ((refIdBytes x).all isNameByte = false →
        _ref_id_to_name x =
          String.intercalate "." ((refIdBytes x).map (fun b => toString b))))
    ∧ _ref_id_to_name 0 = ""
    ∧ _ref_id_to_name 0x7F000001 = "127.0.0.1"
    ∧ _ref_id_to_name 0x47505300 = "GPS"
    ∧ _ref_id_to_name 0x50505300 = "PPS"
    ∧ _ref_id_to_name 0x4C4F434C = "LOCL"
    ∧ _ref_id_to_name 0xC0A80101 = "192.168.1.1" := by
  refine ⟨fun x => ⟨fun h => ?_, fun h => ?_⟩, by decide, by decide, by decide,
    by decide, by decide, by decide⟩
  · unfold _ref_id_to_name
    rw [if_pos h, rstripNulls_eq_dropTrailingZeros]
  · unfold _ref_id_to_name
    rw [if_neg (by simp [h])]

/-- Witness for C1 at the concrete input 0x47505300 ("GPS"). -/
theorem refIdToName_correct_witness :
    _ref_id_to_name 0x47505300 =
      String.mk ((dropTrailingZeros (refIdBytes 0x47505300)).map Char.ofNat) :=
  (refIdToName_correct.1 0x47505300).1 (by decide)

/-- C8: `_timespec_to_float` equals `seconds + nanoseconds / 1_000_000_000`
(idealized real arithmetic, modelled exactly over the rationals), with the
three concrete cases from the spec. -/
theorem timespec_to_float_correct :
    (∀ tv_sec tv_nsec : ℤ,
      _timespec_to_float tv_sec tv_nsec = tv_sec + tv_nsec / 1000000000)
    ∧ _timespec_to_float 0 0 = 0
    ∧ _timespec_to_float 100 999999999 = 100.999999999
    ∧ |_timespec_to_float 1705320000 123456789 - 1705320000.123456789| ≤ 1e-9 := by
  refine ⟨fun s ns => ?_, ?_, ?_, ?_⟩ <;>
    norm_num [_timespec_to_float, NANOSECONDS_PER_SECOND]

/-! ### Claim theorems: validators -/

/-- C4: for each of the four record types, a NaN or infinite float field
makes the validator raise a Data error naming that field (for the first
non-finite field in check order, once the preceding integer checks pass),
and a record whose float fields are all finite passes the finiteness
portion of validation. -/
theorem validators_reject_nonfinite :
    (∀ d : TrackingStatus, trackingIntChecks d = .ok () →
      ∀ name v,
        (trackingFloatFields d).find? (fun p => p.2.isnan || p.2.isinf)
          = some (name, v) →
        _validate_tracking d
          = .error (.data ("Invalid " ++ name ++ ": " ++ v.render)))
    ∧ (∀ d : TrackingStatus,
        (trackingFloatFields d).all (fun p => p.2.isFinite) = true →
        checkFloatsFinite (trackingFloatFields d) = .ok ())
    ∧ (∀ d : Source, sourceIntChecks d = .ok () →
      ∀ name v,
        (sourceFloatFields d).find? (fun p => p.2.isnan || p.2.isinf)
          = some (name, v) →
        _validate_source d
          = .error (.data ("Invalid " ++ name ++ ": " ++ v.render)))
    ∧ (∀ d : Source,
        (sourceFloatFields d).all (fun p => p.2.isFinite) = true →
        checkFloatsFinite (sourceFloatFields d) = .ok ())
    ∧ (∀ d : SourceStats, sourcestatsIntChecks d = .ok () →
      ∀ name v,
        (sourcestatsFloatFields d).find? (fun p => p.2.isnan || p.2.isinf)
          = some (name, v) →
        _validate_sourcestats d
          = .error (.data ("Invalid " ++ name ++ ": " ++ v.render)))
    ∧ (∀ d : SourceStats,
        (sourcestatsFloatFields d).all (fun p => p.2.isFinite) = true →
        checkFloatsFinite (sourcestatsFloatFields d) = .ok ())
    ∧ (∀ d : RTCData, rtcIntChecks d = .ok () →
      ∀ name v,
        (rtcFloatFields d).find? (fun p => p.2.isnan || p.2.isinf)
          = some (name, v) →
        _validate_rtc d
          = .error (.data ("Invalid " ++ name ++ ": " ++ v.render)))
    ∧ (∀ d : RTCData,
        (rtcFloatFields d).all (fun p => p.2.isFinite) = true →
        checkFloatsFinite (rtcFloatFields d) = .ok ()) := by
  refine ⟨?_, ?_, ?_, ?_, ?_, ?_, ?_, ?_⟩
  · intro d hint name v hf
    show (trackingIntChecks d >>= fun _ =>
      checkFloatsFinite (trackingFloatFields d) >>= fun _ =>
        checkFloatsNonNegative (trackingNonNegativeFields d)) = _
    rw [hint, exceptBind_ok, checkFloatsFinite_error_of_find hf,
      exceptBind_error]
  · intro d h; exact (checkFloatsFinite_ok_iff _).mpr h
  · intro d hint name v hf
    show (sourceIntChecks d >>= fun _ =>
      checkFloatsFinite (sourceFloatFields d) >>= fun _ =>
        sourceSignChecks d) = _
    rw [hint, exceptBind_ok, checkFloatsFinite_error_of_find hf,
      exceptBind_error]
  · intro d h; exact (checkFloatsFinite_ok_iff _).mpr h
  · intro d hint name v hf
    show (sourcestatsIntChecks d >>= fun _ =>
      checkFloatsFinite (sourcestatsFloatFields d) >>= fun _ =>
        sourcestatsSignChecks d) = _
    rw [hint, exceptBind_ok, checkFloatsFinite_error_of_find hf,
      exceptBind_error]
  · intro d h; exact (checkFloatsFinite_ok_iff _).mpr h
  · intro d hint name v hf
    show (rtcIntChecks d >>= fun _ =>
      checkFloatsFinite (rtcFloatFields d) >>= fun _ => rtcSignChecks d) = _
    rw [hint, exceptBind_ok, checkFloatsFinite_error_of_find hf,
      exceptBind_error]
  · intro d h; exact (checkFloatsFinite_ok_iff _).mpr h

/-- Witness for C4: tracking record with a NaN offset is rejected with a
message naming the offset field. -/
theorem validators_reject_nonfinite_witness :
    _validate_tracking { sampleTracking with offset := .nan }
      = .error (.data ("Invalid " ++ "offset" ++ ": " ++ PyFloat.nan.render)) :=
  validators_reject_nonfinite.1 { sampleTracking with offset := .nan }
    (by decide) "offset" .nan (by decide)

/-- C5: the sign policy — negative finite values in offset, frequency,
last_offset and resid_freq pass validation on otherwise-valid records,
while negative values in rms_offset, skew, root_delay (via the tracking
non-negative field list), std_dev and offset_err raise a Data error. -/
theorem validators_sign_policy :
    (∀ d : TrackingStatus,
      trackingIntChecks d = .ok () →
      (trackingFloatFields d).all (fun p => p.2.isFinite) = true →
      (trackingNonNegativeFields d).all (fun p => !p.2.ltZero) = true →
      d.offset.ltZero = true → d.frequency.ltZero = true →
      d.last_offset.ltZero = true →
      _validate_tracking d = .ok ())
    ∧ (∀ d : TrackingStatus, trackingIntChecks d = .ok () →
      (trackingFloatFields d).all (fun p => p.2.isFinite) = true →
      ∀ name v,
        (trackingNonNegativeFields d).find? (fun p => p.2.ltZero)
          = some (name, v) →
        _validate_tracking d
          = .error (.data (name ++ " must be non-negative: " ++ v.render)))
    ∧ (∀ d : SourceStats,
      sourcestatsIntChecks d = .ok () →
      (sourcestatsFloatFields d).all (fun p => p.2.isFinite) = true →
      d.std_dev.ltZero = false → d.skew.ltZero = false →
      d.offset_err.ltZero = false →
      d.resid_freq.ltZero = true → d.offset.ltZero = true →
      _validate_sourcestats d = .ok ())
    ∧ (∀ d : SourceStats, sourcestatsIntChecks d = .ok () →
      (sourcestatsFloatFields d).all (fun p => p.2.isFinite) = true →
      d.std_dev.ltZero = true →
      _validate_sourcestats d
        = .error (.data ("std_dev must be non-negative: " ++ d.std_dev.render)))
    ∧ (∀ d : SourceStats, sourcestatsIntChecks d = .ok () →
      (sourcestatsFloatFields d).all (fun p => p.2.isFinite) = true →
      d.std_dev.ltZero = false → d.skew.ltZero = true →
      _validate_sourcestats d
        = .error (.data ("skew must be non-negative: " ++ d.skew.render)))
    ∧ (∀ d : SourceStats, sourcestatsIntChecks d = .ok () →
      (sourcestatsFloatFields d).all (fun p => p.2.isFinite) = true →
      d.std_dev.ltZero = false → d.skew.ltZero = false →
      d.offset_err.ltZero = true →
      _validate_sourcestats d
        = .error (.data ("offset_err must be non-negative: "
            ++ d.offset_err.render))) := by
  refine ⟨?_, ?_, ?_, ?_, ?_, ?_⟩
  · intro d h1 h2 h3 _ _ _
    exact (validate_tracking_ok_iff d).mpr
      ⟨(trackingIntChecks_ok_iff d).mp h1, h2, h3⟩
  · intro d h1 h2 name v hf
    show (trackingIntChecks d >>= fun _ =>
      checkFloatsFinite (trackingFloatFields d) >>= fun _ =>
        checkFloatsNonNegative (trackingNonNegativeFields d)) = _
    rw [h1, exceptBind_ok, (checkFloatsFinite_ok_iff _).mpr h2,
      exceptBind_ok]
    exact checkFloatsNonNegative_error_of_find hf
  · intro d h1 h2 h3 h4 h5 _ _
    exact (validate_sourcestats_ok_iff d).mpr
      ⟨(sourcestatsIntChecks_ok_iff d).mp h1, h2, h3, h4, h5⟩
  · intro d h1 h2 h3
    show (sourcestatsIntChecks d >>= fun _ =>
      checkFloatsFinite (sourcestatsFloatFields d) >>= fun _ =>
        sourcestatsSignChecks d) = _
    rw [h1, exceptBind_ok, (checkFloatsFinite_ok_iff _).mpr h2,
      exceptBind_ok]
    unfold sourcestatsSignChecks
    simp [h3, exceptThrow_eq, exceptBind_error]
  · intro d h1 h2 h3 h4
    show (sourcestatsIntChecks d >>= fun _ =>
      checkFloatsFinite (sourcestatsFloatFields d) >>= fun _ =>
        sourcestatsSignChecks d) = _
    rw [h1, exceptBind_ok, (checkFloatsFinite_ok_iff _).mpr h2,
      exceptBind_ok]
    unfold sourcestatsSignChecks
    simp [h3, h4, exceptThrow_eq, exceptBind_ok, exceptBind_error,
      exceptPure_eq]
  · intro d h1 h2 h3 h4 h5
    show (sourcestatsIntChecks d >>= fun _ =>
      checkFloatsFinite (sourcestatsFloatFields d) >>= fun _ =>
        sourcestatsSignChecks d) = _
    rw [h1, exceptBind_ok, (checkFloatsFinite_ok_iff _).mpr h2,
      exceptBind_ok]
    unfold sourcestatsSignChecks
    simp [h3, h4, h5, exceptThrow_eq, exceptBind_ok, exceptBind_error,
      exceptPure_eq]

/-- Witness for C5: a tracking record with negative offset, frequency and
last_offset still validates. -/
theorem validators_sign_policy_witness :
    _validate_tracking { sampleTracking with
      offset := .fin (-1)
      frequency := .fin (-2)
      last_offset := .fin (-3) } = .ok () :=
  validators_sign_policy.1 _ (by decide) (by decide) (by decide) (by decide)
    (by decide) (by decide)

/-- C6: bounded integer validation is exact inclusive range checking —
stratum 0 and 15 pass, -1 and 16 fail, in both the tracking and source
validators; reachability 0 and 255 pass and 256 fails in the source
validator. -/
theorem bounded_int_validation :
    (∀ d : TrackingStatus, (d.stratum = -1 ∨ d.stratum = 16) →
      _validate_tracking d
        = .error (.data ("Invalid stratum: " ++ toString d.stratum)))
    ∧ (∀ d : TrackingStatus, (d.stratum = 0 ∨ d.stratum = 15) →
      (trackingFloatFields d).all (fun p => p.2.isFinite) = true →
      (trackingNonNegativeFields d).all (fun p => !p.2.ltZero) = true →
      _validate_tracking d = .ok ())
    ∧ (∀ d : Source, (d.stratum = -1 ∨ d.stratum = 16) →
      _validate_source d
        = .error (.data ("Invalid stratum: " ++ toString d.stratum)))
    ∧ (∀ d : Source, 0 ≤ d.stratum → d.stratum ≤ 15 → d.reachability = 256 →
      _validate_source d
        = .error (.data ("Invalid reachability: " ++ toString d.reachability)))
    ∧ (∀ d : Source, (d.stratum = 0 ∨ d.stratum = 15) →
      (d.reachability = 0 ∨ d.reachability = 255) →
      ¬d.last_sample_ago < 0 →
      (sourceFloatFields d).all (fun p => p.2.isFinite) = true →
      d.latest_meas_err.ltZero = false →
      _validate_source d = .ok ()) := by
  refine ⟨?_, ?_, ?_, ?_, ?_⟩
  · intro d h
    have hI : trackingIntChecks d
        = .error (.data ("Invalid stratum: " ++ toString d.stratum)) := by
      unfold trackingIntChecks
      rcases h with h | h <;> rw [h] <;> rfl
    show (trackingIntChecks d >>= fun _ =>
      checkFloatsFinite (trackingFloatFields d) >>= fun _ =>
        checkFloatsNonNegative (trackingNonNegativeFields d)) = _
    rw [hI, exceptBind_error]
  · intro d h hfin hnn
    refine (validate_tracking_ok_iff d).mpr ⟨?_, hfin, hnn⟩
    rcases h with h | h <;> rw [h] <;> exact ⟨by decide, by decide⟩
  · intro d h
    have hb : _validate_bounded_int d.stratum "stratum" 0 15
        = .error (.data ("Invalid stratum: " ++ toString d.stratum)) := by
      unfold _validate_bounded_int
      rcases h with h | h <;> rw [h] <;> rfl
    have hI : sourceIntChecks d
        = .error (.data ("Invalid stratum: " ++ toString d.stratum)) := by
      show (_validate_bounded_int d.stratum "stratum" 0 15 >>= fun _ =>
        _validate_bounded_int d.reachability "reachability" 0 255
          >>= fun _ =>
            _validate_non_negative_int d.last_sample_ago "last_sample_ago")
          = _
      rw [hb, exceptBind_error]
    show (sourceIntChecks d >>= fun _ =>
      checkFloatsFinite (sourceFloatFields d) >>= fun _ =>
        sourceSignChecks d) = _
    rw [hI, exceptBind_error]
  · intro d h1 h2 h3
    have hs : _validate_bounded_int d.stratum "stratum" 0 15 = .ok () :=
      (validate_bounded_int_ok_iff _ _ _ _).mpr ⟨h1, h2⟩
    have hr : _validate_bounded_int d.reachability "reachability" 0 255
        = .error (.data ("Invalid reachability: "
            ++ toString d.reachability)) := by
      unfold _validate_bounded_int
      rw [h3]
      rfl
    have hI : sourceIntChecks d
        = .error (.data ("Invalid reachability: "
            ++ toString d.reachability)) := by
      show (_validate_bounded_int d.stratum "stratum" 0 15 >>= fun _ =>
        _validate_bounded_int d.reachability "reachability" 0 255
          >>= fun _ =>
            _validate_non_negative_int d.last_sample_ago "last_sample_ago")
          = _
      rw [hs, exceptBind_ok, hr, exceptBind_error]
    show (sourceIntChecks d >>= fun _ =>
      checkFloatsFinite (sourceFloatFields d) >>= fun _ =>
        sourceSignChecks d) = _
    rw [hI, exceptBind_error]
  · intro d h1 h2 h3 h4 h5
    refine (validate_source_ok_iff d).mpr ⟨⟨?_, ?_, h3⟩, h4, h5⟩
    · rcases h1 with h | h <;> rw [h] <;> exact ⟨by decide, by decide⟩
    · rcases h2 with h | h <;> rw [h] <;> exact ⟨by decide, by decide⟩

/-- Witness for C6: a source record with stratum 0 and reachability 255
validates. -/
theorem bounded_int_validation_witness :
    _validate_source { sampleSource with stratum := 0 } = .ok () :=
  bounded_int_validation.2.2.2.2 { sampleSource with stratum := 0 }
    (Or.inl (by decide)) (Or.inr (by decide)) (by decide) (by decide)
    (by decide)

/-- C10: on every tracking record accepted by `_validate_tracking`,
`is_synchronized` returns true exactly when the reference ID is non-zero;
the stratum conjunct is forced true by the validated bound stratum ≤ 15. -/
theorem is_synchronized_iff_reference_id (d : TrackingStatus)
    (h : _validate_tracking d = .ok ()) :
    d.is_synchronized = true ↔ d.reference_id ≠ 0 := by
  have hs : d.stratum ≤ 15 := ((validate_tracking_ok_iff d).mp h).1.2
  unfold TrackingStatus.is_synchronized
  have h16 : decide (d.stratum < 16) = true := by
    simp only [decide_eq_true_eq]
    omega
  rw [h16, Bool.and_true]
  exact bne_iff_ne

/-- Witness for C10 on a concrete validated record. -/
theorem is_synchronized_iff_reference_id_witness :
    sampleTracking.is_synchronized = true
      ↔ sampleTracking.reference_id ≠ 0 :=
  is_synchronized_iff_reference_id sampleTracking (by decide)

/-! ### Claim theorems: protocol and extraction -/

/-- C3: enumerated raw values outside the client's known sets are rejected
at extraction time with a Data error and never mapped to a default — leap
status outside {0,1,2,3}, source state outside {0..5}, source mode outside
{0,1,2} — while every in-range value extracts to its tagged variant. -/
theorem enum_rejection :
    (∀ n : Nat, LeapStatus.ofNat? n = none ↔ 4 ≤ n)
    ∧ (∀ n : Nat, SourceState.ofNat? n = none ↔ 6 ≤ n)
    ∧ (∀ n : Nat, SourceMode.ofNat? n = none ↔ 3 ≤ n)
    ∧ (∀ env : FieldEnv, envHasFields env trackingFieldNames = true →
        LeapStatus.ofNat? (env.uintAt (env.index "leap status")) = none →
        _extract_tracking_fields env
          = .error (.data ("Unknown leap_status value "
              ++ toString (env.uintAt (env.index "leap status"))
              ++ ". This may indicate a newer chrony version - "
              ++ "please update pychrony.")))
    ∧ (∀ env : FieldEnv, envHasFields env trackingFieldNames = true →
        ∀ l, LeapStatus.ofNat? (env.uintAt (env.index "leap status"))
            = some l →
        ∃ d, _extract_tracking_fields env = .ok d ∧ d.leap_status = l)
    ∧ (∀ env : FieldEnv, envHasFields env sourceFieldNames = true →
        SourceState.ofNat? (env.uintAt (env.index "state")) = none →
        _get_source_from_record env
          = .error (.data ("Unknown state value "
              ++ toString (env.uintAt (env.index "state"))
              ++ ". This may indicate a newer chrony version - "
              ++ "please update pychrony.")))
    ∧ (∀ env : FieldEnv, envHasFields env sourceFieldNames = true →
        ∀ s, SourceState.ofNat? (env.uintAt (env.index "state")) = some s →
        SourceMode.ofNat? (env.uintAt (env.index "mode")) = none →
        _get_source_from_record env
          = .error (.data ("Unknown mode value "
              ++ toString (env.uintAt (env.index "mode"))
              ++ ". This may indicate a newer chrony version - "
              ++ "please update pychrony.")))
    ∧ (∀ env : FieldEnv, envHasFields env sourceFieldNames = true →
        ∀ s m, SourceState.ofNat? (env.uintAt (env.index "state")) = some s →
          SourceMode.ofNat? (env.uintAt (env.index "mode")) = some m →
          ∃ d, _get_source_from_record env = .ok d
            ∧ d.state = s ∧ d.mode = m) := by
  refine ⟨?_, ?_, ?_, ?_, ?_, ?_, ?_, ?_⟩
  · intro n
    unfold LeapStatus.ofNat?
    split_ifs with h0 h1 h2 h3 <;> simp <;> omega
  · intro n
    unfold SourceState.ofNat?
    split_ifs with h0 h1 h2 h3 h4 h5 <;> simp <;> omega
  · intro n
    unfold SourceMode.ofNat?
    split_ifs with h0 h1 h2 <;> simp <;> omega
  · intro env hf hnone
    rw [extract_tracking_of_fields env hf]
    simp only [hnone]
  · intro env hf l hsome
    rw [extract_tracking_of_fields env hf]
    simp only [hsome]
    exact ⟨_, rfl, rfl⟩
  · intro env hf hnone
    rw [extract_source_of_fields env hf]
    simp only [hnone]
  · intro env hf s hs hm
    rw [extract_source_of_fields env hf]
    simp only [hs, hm]
  · intro env hf s m hs hm
    rw [extract_source_of_fields env hf]
    simp only [hs, hm]
    exact ⟨_, rfl, rfl, rfl⟩

/-- Witness for C3: a field table reading leap status 5 makes tracking
extraction fail with the unknown-value Data error. -/
theorem enum_rejection_witness :
    _extract_tracking_fields sampleBadLeapEnv
      = .error (.data ("Unknown leap_status value "
          ++ toString (sampleBadLeapEnv.uintAt
              (sampleBadLeapEnv.index "leap status"))
          ++ ". This may indicate a newer chrony version - "
          ++ "please update pychrony.")) :=
  enum_rejection.2.2.2.1 sampleBadLeapEnv (by decide) (by decide)

/-- C7: an explicit socket path is returned verbatim for every filesystem
state (and a nonexistent explicit path surfaces later as a Connection
error from the failed socket open, not as an early path-validation error);
with no explicit path the two default paths are probed in order and the
first existing one wins; with neither existing, a Connection error names
both tried paths. -/
theorem socket_path_resolution :
    (∀ (fs : FS) (p : String), _find_socket_path fs (some p) = .ok p)
    ∧ (∀ fs : FS, fs.pathExists "/run/chrony/chronyd.sock" = true →
        _find_socket_path fs none = .ok "/run/chrony/chronyd.sock")
    ∧ (∀ fs : FS, fs.pathExists "/run/chrony/chronyd.sock" = false →
        fs.pathExists "/var/run/chrony/chronyd.sock" = true →
        _find_socket_path fs none = .ok "/var/run/chrony/chronyd.sock")
    ∧ (∀ fs : FS, fs.pathExists "/run/chrony/chronyd.sock" = false →
        fs.pathExists "/var/run/chrony/chronyd.sock" = false →
        _find_socket_path fs none
          = .error (.connection ("chronyd socket not found. Tried: "
              ++ "/run/chrony/chronyd.sock, /var/run/chrony/chronyd.sock"
              ++ ". Is chronyd running?")))
    ∧ (∀ (fs : FS) (beh : LibBehavior) (p : String),
        beh.libraryAvailable = true → fs.pathExists p = false →
        beh.openResult < 0 → beh.openResult ≠ -13 →
        get_tracking fs (some p) beh
          = (.error (.connection ("Failed to connect to chronyd at " ++ p
              ++ ". Is chronyd running?")), false)) := by
  refine ⟨?_, ?_, ?_, ?_, ?_⟩
  · intro fs p; rfl
  · intro fs h
    unfold _find_socket_path DEFAULT_SOCKET_PATHS
    simp [List.find?_cons, h]
  · intro fs h1 h2
    unfold _find_socket_path DEFAULT_SOCKET_PATHS
    simp [List.find?_cons, h1, h2]
  · intro fs h1 h2
    unfold _find_socket_path DEFAULT_SOCKET_PATHS
    simp only [List.find?_cons, h1, h2]
    rfl
  · intro fs beh p hlib hex hopen hne
    have hb : (beh.openResult == -13) = false := by simpa using hne
    have ho : openSocket fs (some p) beh
        = .error (.connection ("Failed to connect to chronyd at " ++ p
            ++ ". Is chronyd running?")) := by
      unfold openSocket
      simp [hlib, _find_socket_path, hopen, hb, hex, exceptBind_ok,
        exceptPure_eq, exceptThrow_eq, exceptBind_error]
    unfold get_tracking
    rw [ho]

/-- Witness for C7: with both default paths existing, resolution returns
the first default path. -/
theorem socket_path_resolution_witness :
    _find_socket_path sampleFS none = .ok "/run/chrony/chronyd.sock" :=
  socket_path_resolution.2.1 sampleFS rfl

/-- C2: with a successful prologue and count phase, a record count below 1
makes get_tracking raise the no-tracking-records Data error, makes
get_sources and get_source_stats return the empty list, and makes
get_rtc_data raise the RTC-configuration Data error; and for rtcdata a
process_response failure during the per-record drain (even after a count
of at least 1) raises that same RTC-configuration error. -/
theorem record_count_semantics :
    (∀ (fs : FS) (sp : Option String) (beh : LibBehavior) (p : String),
      openSocket fs sp beh = .ok p →
      beh.initResult = 0 → beh.requestNumResult = 0 →
      beh.countDrain.all (fun e => e == 0) = true →
      beh.numRecords < 1 →
      get_tracking fs sp beh
        = (.error (.data "No tracking records available"),
            beh.initSetsSession))
    ∧ (∀ (fs : FS) (sp : Option String) (beh : LibBehavior) (p : String),
      openSocket fs sp beh = .ok p →
      beh.initResult = 0 → beh.requestNumResult = 0 →
      beh.countDrain.all (fun e => e == 0) = true →
      beh.numRecords < 1 →
      get_sources fs sp beh = (.ok [], beh.initSetsSession))
    ∧ (∀ (fs : FS) (sp : Option String) (beh : LibBehavior) (p : String),
      openSocket fs sp beh = .ok p →
      beh.initResult = 0 → beh.requestNumResult = 0 →
      beh.countDrain.all (fun e => e == 0) = true →
      beh.numRecords < 1 →
      get_source_stats fs sp beh = (.ok [], beh.initSetsSession))
    ∧ (∀ (fs : FS) (sp : Option String) (beh : LibBehavior) (p : String),
      openSocket fs sp beh = .ok p →
      beh.initResult = 0 → beh.requestNumResult = 0 →
      beh.countDrain.all (fun e => e == 0) = true →
      beh.numRecords < 1 →
      get_rtc_data fs sp beh
        = (.error (.data rtcUnavailableMsg), beh.initSetsSession))
    ∧ (∀ (fs : FS) (sp : Option String) (beh : LibBehavior) (p : String),
      openSocket fs sp beh = .ok p →
      beh.initResult = 0 → beh.requestNumResult = 0 →
      beh.countDrain.all (fun e => e == 0) = true →
      1 ≤ beh.numRecords →
      beh.requestRecordResult 0 = 0 →
      (beh.recordDrain 0).any (fun e => e != 0) = true →
      get_rtc_data fs sp beh
        = (.error (.data rtcUnavailableMsg), beh.initSetsSession)) := by
  refine ⟨?_, ?_, ?_, ?_, ?_⟩
  · intro fs sp beh p ho h1 h2 h3 h4
    have hb : trackingBody beh
        = .error (.data "No tracking records available") := by
      unfold trackingBody
      simp [h1, h2, drainResponses_ok_of_all _ _ h3, h4, exceptBind_ok,
        exceptPure_eq, exceptThrow_eq, exceptBind_error]
    unfold get_tracking
    rw [ho, hb]
  · intro fs sp beh p ho h1 h2 h3 h4
    have hb : sourcesBody beh = .ok [] := by
      unfold sourcesBody
      simp [h1, h2, drainResponses_ok_of_all _ _ h3, h4, exceptBind_ok,
        exceptPure_eq]
    unfold get_sources
    rw [ho, hb]
  · intro fs sp beh p ho h1 h2 h3 h4
    have hb : sourcestatsBody beh = .ok [] := by
      unfold sourcestatsBody
      simp [h1, h2, drainResponses_ok_of_all _ _ h3, h4, exceptBind_ok,
        exceptPure_eq]
    unfold get_source_stats
    rw [ho, hb]
  · intro fs sp beh p ho h1 h2 h3 h4
    have hb : rtcBody beh = .error (.data rtcUnavailableMsg) := by
      unfold rtcBody
      simp [h1, h2, drainResponses_ok_of_all _ _ h3, h4, exceptBind_ok,
        exceptPure_eq, exceptThrow_eq, exceptBind_error]
    unfold get_rtc_data
    rw [ho, hb]
  · intro fs sp beh p ho h1 h2 h3 h4 h5 h6
    have h4' : ¬beh.numRecords < 1 := by omega
    have hb : rtcBody beh = .error (.data rtcUnavailableMsg) := by
      unfold rtcBody
      simp [h1, h2, drainResponses_ok_of_all _ _ h3, h4', h5,
        drainResponses_error_of_any _ _ h6, exceptBind_ok, exceptPure_eq,
        exceptThrow_eq, exceptBind_error]
    unfold get_rtc_data
    rw [ho, hb]

/-- Witness for C2: a zero-record behaviour makes get_tracking raise the
no-tracking-records error, with the session deinitialized. -/
theorem record_count_semantics_witness :
    get_tracking sampleFS none sampleBehaviorNoRecords
      = (.error (.data "No tracking records available"), true) :=
  record_count_semantics.1 sampleFS none sampleBehaviorNoRecords
    "/run/chrony/chronyd.sock" (by decide) rfl rfl (by decide) (by decide)

/-- C9: whenever the prologue succeeds (so the try block is entered) and
session initialization produced a non-null session, all four query
operations run `chrony_deinit_session` — whatever the body returns or
raises. -/
theorem session_teardown_guaranteed :
    ∀ (fs : FS) (sp : Option String) (beh : LibBehavior) (p : String),
      openSocket fs sp beh = .ok p →
      beh.initSetsSession = true →
      (get_tracking fs sp beh).2 = true
      ∧ (get_sources fs sp beh).2 = true
      ∧ (get_source_stats fs sp beh).2 = true
      ∧ (get_rtc_data fs sp beh).2 = true := by
  intro fs sp beh p ho hs
  unfold get_tracking get_sources get_source_stats get_rtc_data
  rw [ho]
  exact ⟨hs, hs, hs, hs⟩

/-- Witness for C9 on a concrete behaviour. -/
theorem session_teardown_guaranteed_witness :
    (get_tracking sampleFS none sampleBehaviorNoRecords).2 = true
    ∧ (get_sources sampleFS none sampleBehaviorNoRecords).2 = true
    ∧ (get_source_stats sampleFS none sampleBehaviorNoRecords).2 = true
    ∧ (get_rtc_data sampleFS none sampleBehaviorNoRecords).2 = true :=
  session_teardown_guaranteed sampleFS none sampleBehaviorNoRecords
    "/run/chrony/chronyd.sock" (by decide) rfl
